import Mathlib

/-
  Verification development for erts/emulator/beam/code_ix.h: the code-index
  rotation mechanism of the BEAM emulator (active/staging/retiring epochs,
  the code write permission gate, dispatch tables and function headers).

  Shallow embedding conventions:
  * machine words (Uint, BeamInstr, pointers) are Nat, with 2^64 wrap where
    the C code relies on it;
  * pointers are byte addresses (Nat); struct layout is derived from the
    struct declarations in code_ix.h assuming an LP64 platform (8-byte
    words, all fields 8-byte aligned, no padding);
  * parts of the repository that are only declared in code_ix.h (the
    implementations in code_ix.c, the Eterm representation from erl_term.h,
    the opcode table from beam_opcodes.h) are modelled from the spec and
    marked as such.
-/

namespace CodeIx

/-! ## Compile-time constants (code_ix.h lines 65-72) -/

def ERTS_NUM_CODE_IX : Nat := 3

/-- `ERTS_ADDRESSV_SIZE` depends on whether the emulator is built with the
JIT (`BEAMASM`): `ERTS_NUM_CODE_IX + 1` under `BEAMASM`, otherwise
`ERTS_NUM_CODE_IX`. The preprocessor conditional is modelled as a `Bool`
parameter. -/
def ERTS_ADDRESSV_SIZE (beamasm : Bool) : Nat :=
  if beamasm then ERTS_NUM_CODE_IX + 1 else ERTS_NUM_CODE_IX

/-- `ERTS_SAVE_CALLS_CODE_IX` is only defined under `BEAMASM`, as
`ERTS_ADDRESSV_SIZE - 1` with `ERTS_ADDRESSV_SIZE = ERTS_NUM_CODE_IX + 1`. -/
def ERTS_SAVE_CALLS_CODE_IX : Nat := ERTS_ADDRESSV_SIZE true - 1

/-! ## Word-level data model -/

/- `ErtsCodePtr` (a machine pointer, modelled as a byte address) and
`ErtsCodeIndex` (`unsigned`) are both modelled as plain `Nat`. -/

/-- Modelled from the spec: `Eterm` comes from erl_term.h, which is not in
the sources. The spec only needs that a term can be a valid interned symbol
(atom), the designated "none" sentinel (NIL), or something else. -/
inductive Eterm where
  | atom (ix : Nat)
  | nil
  | other (w : Nat)
deriving DecidableEq, Repr

def is_atom : Eterm → Bool
  | .atom _ => true
  | _ => false

def is_nil : Eterm → Bool
  | .nil => true
  | _ => false

/-- `(Uint)-1` on an LP64 platform: the sentinel arity value. -/
def uint_minus_one : Nat := 18446744073709551615

/-- `ErtsCodeMFA` (code_ix.h lines 82-86): the identity triple. `arity`
is a `Uint`, modelled as its Nat value (so the `-1` sentinel is
`uint_minus_one`). -/
structure ErtsCodeMFA where
  module : Eterm
  function : Eterm
  arity : Nat
deriving DecidableEq, Repr

/-- `ErtsCodeInfo` (code_ix.h lines 95-101): the function header. The
union `u` holds a single pointer (`gen_bp`, trace breakpoint), modelled
as an address. `mfa` is the last field. -/
structure ErtsCodeInfo where
  op : Nat
  gen_bp : Nat
  mfa : ErtsCodeMFA
deriving DecidableEq, Repr

/-! ## Struct layout, derived from the declarations (LP64) -/

def wordSize : Nat := 8

def sizeof_BeamInstr : Nat := wordSize

def sizeof_union_u : Nat := wordSize

/-- `sizeof(ErtsCodeMFA)`: three word-sized fields. -/
def sizeof_ErtsCodeMFA : Nat := 3 * wordSize

/-- `offsetof(ErtsCodeInfo, mfa)`: `mfa` follows `op` and the union `u`. -/
def offsetof_mfa : Nat := sizeof_BeamInstr + sizeof_union_u

/-- `sizeof(ErtsCodeInfo)`: `mfa` is the last field and every field is
word-aligned, so there is no tail padding. -/
def sizeof_ErtsCodeInfo : Nat := offsetof_mfa + sizeof_ErtsCodeMFA

/-! ## Pointer translations (code_ix.h lines 198-236)

The four accessors are pure pointer arithmetic: `&ci[1]`, `&ci[-1]`,
`&mfa[1]`, `&mfa[-1]`. -/

/-- `erts_codeinfo_to_code`: `(ErtsCodePtr)&ci[1]`. -/
def erts_codeinfo_to_code (ci : Nat) : Nat :=
  ci + sizeof_ErtsCodeInfo

/-- `erts_code_to_codeinfo`: `&((const ErtsCodeInfo *)I)[-1]`. -/
def erts_code_to_codeinfo (I : Nat) : Nat :=
  I - sizeof_ErtsCodeInfo

/-- `erts_codemfa_to_code`: `(ErtsCodePtr)&mfa[1]`. -/
def erts_codemfa_to_code (mfa : Nat) : Nat :=
  mfa + sizeof_ErtsCodeMFA

/-- `erts_code_to_codemfa`: `&((const ErtsCodeMFA *)I)[-1]`. -/
def erts_code_to_codemfa (I : Nat) : Nat :=
  I - sizeof_ErtsCodeMFA

/-! ## Debug assertions (code_ix.h lines 186-191, 198-236) -/

/-- `ASSERT_MFA` (code_ix.h lines 188-191): module and function must each
be an atom or NIL, and arity must be in `[0, 1024)` or equal `(Uint)-1`.
The `arity >= 0` conjunct is vacuous for an unsigned field and the `-1`
literal converts to `2^64 - 1`. -/
def ASSERT_MFA (mfa : ErtsCodeMFA) : Bool :=
  (is_atom mfa.module || is_nil mfa.module) &&
  (is_atom mfa.function || is_nil mfa.function) &&
  ((decide (0 ≤ mfa.arity) && decide (mfa.arity < 1024)) ||
   decide (mfa.arity = uint_minus_one))

/-- Modelled from the spec: `op_i_func_info_IaaI` is the opcode number the
generated beam_opcodes.h (not in the sources) assigns to `i_func_info`;
the spec only requires a fixed recognizable marker, so the concrete value
is irrelevant to every property below. -/
def op_i_func_info_IaaI : Nat := 1

/-- Modelled from the spec: `BeamIsOpCode` (beam_opcodes.h is not in the
sources) checks that an instruction word carries a given opcode. -/
def BeamIsOpCode (x op : Nat) : Bool := x == op

/-- The assertion in `erts_codeinfo_to_code` / `erts_code_to_codeinfo`
(non-BEAMASM): `BeamIsOpCode(ci->op, op_i_func_info_IaaI) || !ci->op`,
together with `ASSERT_MFA(&ci->mfa)`. -/
def codeinfo_asserts (ci : ErtsCodeInfo) : Bool :=
  (BeamIsOpCode ci.op op_i_func_info_IaaI || ci.op == 0) && ASSERT_MFA ci.mfa

/-- Debug-build behaviour of `erts_codeinfo_to_code`: the assertions are
evaluated on the pointed-to header before the pointer arithmetic; a firing
assertion aborts (modelled as `none`). -/
def erts_codeinfo_to_code_dbg (a : Nat) (ci : ErtsCodeInfo) :
    Option Nat :=
  if codeinfo_asserts ci then some (erts_codeinfo_to_code a) else none

/-- Debug-build behaviour of `erts_code_to_codeinfo`: `ci` is the header
record stored at `I - sizeof(ErtsCodeInfo)`. -/
def erts_code_to_codeinfo_dbg (I : Nat) (ci : ErtsCodeInfo) :
    Option Nat :=
  if codeinfo_asserts ci then some (erts_code_to_codeinfo I) else none

/-- Debug-build behaviour of `erts_codemfa_to_code`: only `ASSERT_MFA`. -/
def erts_codemfa_to_code_dbg (a : Nat) (mfa : ErtsCodeMFA) :
    Option Nat :=
  if ASSERT_MFA mfa then some (erts_codemfa_to_code a) else none

/-- Debug-build behaviour of `erts_code_to_codemfa`: `mfa` is the record
stored at `I - sizeof(ErtsCodeMFA)`. -/
def erts_code_to_codemfa_dbg (I : Nat) (mfa : ErtsCodeMFA) :
    Option Nat :=
  if ASSERT_MFA mfa then some (erts_code_to_codemfa I) else none

/-! ## Dispatch tables (code_ix.h lines 76-78) -/

/-- `ErtsDispatchable`: one code address per slot,
`ERTS_ADDRESSV_SIZE` slots. -/
structure ErtsDispatchable (beamasm : Bool) where
  addresses : Fin (ERTS_ADDRESSV_SIZE beamasm) → Nat

/-- Indexed read of a dispatch slot (`addresses[ix]`). -/
def dispatchRead (d : ErtsDispatchable beamasm)
    (ix : Fin (ERTS_ADDRESSV_SIZE beamasm)) : Nat :=
  d.addresses ix

/-- Indexed write of a dispatch slot (`addresses[ix] = v`). -/
def dispatchWrite (d : ErtsDispatchable beamasm)
    (ix : Fin (ERTS_ADDRESSV_SIZE beamasm)) (v : Nat) :
    ErtsDispatchable beamasm :=
  ⟨fun j => if j = ix then v else d.addresses j⟩

/-! ## Staging lifecycle (declared in code_ix.h lines 119-180; the bodies
live in code_ix.c, which is not in the sources, so the operations are
modelled from the spec, section 4.3) -/

/-- Lifecycle phase of the staging state machine:
`Idle -> Staged -> Ended -> Idle`. -/
inductive StagePhase where
  | idle
  | staged
  | ended
deriving DecidableEq, Repr

/-- The process-wide epoch set: the two atomic indices
`the_active_code_index` and `the_staging_code_index` (code_ix.h lines
193-194), plus the lifecycle phase the spec's state machine tracks. -/
structure CodeIxState where
  the_active_code_index : Nat
  the_staging_code_index : Nat
  phase : StagePhase
deriving DecidableEq, Repr

/-- `erts_active_code_ix` (code_ix.h lines 238-241): atomic read of
`the_active_code_index`. -/
def erts_active_code_ix (s : CodeIxState) : Nat :=
  s.the_active_code_index

/-- `erts_staging_code_ix` (code_ix.h lines 242-245): atomic read of
`the_staging_code_index`. -/
def erts_staging_code_ix (s : CodeIxState) : Nat :=
  s.the_staging_code_index

/-- The retiring index: the spec says it is never stored, being the unique
value in `{0,1,2}` distinct from both `active` and `staging`; for distinct
`a s < 3` that value is `3 - (a + s)`. -/
def retiring_ix (a s : Nat) : Nat := 3 - (a + s)

/-- Modelled from the spec : `erts_code_ix_init` (body in code_ix.c, not in
the sources). Spec section 4.1: one-time startup sets `active = 0`,
`staging = 1`, the retiring index implicitly 2. -/
def erts_code_ix_init : CodeIxState :=
  { the_active_code_index := 0, the_staging_code_index := 1, phase := .idle }

/-- Modelled from the spec : `erts_start_staging_code_ix` (body in
code_ix.c, not in the sources). Spec section 4.3: precondition Idle plus
gate held; sets `staging` to the current retiring index (the one not equal
to `active`), leaving `active` alone; moves to Staged. The `num_new`
argument only sizes the staged structures and does not affect the
indices. -/
def erts_start_staging_code_ix (num_new : Nat) (s : CodeIxState) :
    CodeIxState :=
  { s with
    the_staging_code_index :=
      retiring_ix s.the_active_code_index s.the_staging_code_index,
    phase := .staged }

/-- Modelled from the spec : `erts_end_staging_code_ix` (body in code_ix.c,
not in the sources). Spec section 4.3: finalizes the staged contents; the
indices are untouched; moves to Ended. -/
def erts_end_staging_code_ix (s : CodeIxState) : CodeIxState :=
  { s with phase := .ended }

/-- Modelled from the spec : `erts_commit_staging_code_ix` (body in
code_ix.c, not in the sources). Spec section 4.3: the value of `staging`
becomes the new `active` (the publish point); the previously active index
becomes the new retiring index; moves to Idle. The staging index is
rotated to the remaining third index, as forced by the spec's invariant
`active ≠ staging` at every instant together with the retiring-index
bookkeeping of section 8. -/
def erts_commit_staging_code_ix (s : CodeIxState) : CodeIxState :=
  { s with
    the_active_code_index := s.the_staging_code_index,
    the_staging_code_index :=
      retiring_ix s.the_active_code_index s.the_staging_code_index,
    phase := .idle }

/-- Modelled from the spec : `erts_abort_staging_code_ix` (body in
code_ix.c, not in the sources). Spec section 4.3: discards the staged
generation's contents; `active` is untouched (and no index changes);
moves to Idle. -/
def erts_abort_staging_code_ix (s : CodeIxState) : CodeIxState :=
  { s with phase := .idle }

/-- The epoch-set invariant: both indices are valid epochs and
`active ≠ staging` (spec sections 3 and 8). -/
def CodeIxInv (s : CodeIxState) : Prop :=
  s.the_active_code_index < ERTS_NUM_CODE_IX ∧
  s.the_staging_code_index < ERTS_NUM_CODE_IX ∧
  s.the_active_code_index ≠ s.the_staging_code_index

instance (s : CodeIxState) : Decidable (CodeIxInv s) := by
  unfold CodeIxInv; infer_instance

/-- The operations of the code-index interface, for trace-based
statements. -/
inductive CodeIxOp where
  | start (num_new : Nat)
  | stop
  | commit
  | abort
deriving DecidableEq, Repr

def applyCodeIxOp (s : CodeIxState) : CodeIxOp → CodeIxState
  | .start n => erts_start_staging_code_ix n s
  | .stop => erts_end_staging_code_ix s
  | .commit => erts_commit_staging_code_ix s
  | .abort => erts_abort_staging_code_ix s

/-- The state after running a sequence of interface operations from the
initialized state. -/
def runCodeIx (ops : List CodeIxOp) : CodeIxState :=
  List.foldl applyCodeIxOp erts_code_ix_init ops

/-! ## Write-permission gate (declared in code_ix.h lines 138-158; the
bodies live in code_ix.c, which is not in the sources, so the gate is
modelled from the spec, section 4.2) -/

/-- Modelled from the spec : the write-permission gate state (code_ix.c is
not in the sources). States Free/Held, a wait set of blocked callers
(`struct process*`, modelled as ids), and registered background
callback/argument pairs. -/
structure GateState where
  held : Bool
  waiters : List Nat
  callbacks : List (Nat × Nat)
deriving DecidableEq, Repr

/-- Modelled from the spec : `erts_try_seize_code_write_permission`
(code_ix.c is not in the sources). Spec section 4.2: if Free, transitions
to Held and returns true; if Held, enqueues the caller on the wait set and
returns false (the caller must yield). -/
def erts_try_seize_code_write_permission (c_p : Nat) (g : GateState) :
    GateState × Bool :=
  if g.held then
    ({ g with waiters := g.waiters ++ [c_p] }, false)
  else
    ({ g with held := true }, true)

/-- Modelled from the spec : `erts_try_seize_code_write_permission_aux`
(code_ix.c is not in the sources). Spec section 4.2: on success returns
true and the caller holds permission; on failure returns false and
registers `(func, arg)` to be invoked when the gate is released. -/
def erts_try_seize_code_write_permission_aux (func arg : Nat)
    (g : GateState) : GateState × Bool :=
  if g.held then
    ({ g with callbacks := g.callbacks ++ [(func, arg)] }, false)
  else
    ({ g with held := true }, true)

/-- Modelled from the spec : `erts_release_code_write_permission`
(code_ix.c is not in the sources). Spec section 4.2: transitions Held to
Free; exactly one blocked waiter is woken to resume its own flow, and all
pending background registrations are invoked. -/
def erts_release_code_write_permission (g : GateState) : GateState :=
  { held := false, waiters := g.waiters.tail, callbacks := [] }

/-- `erts_has_code_write_permission` (debug-only query): whether the gate
is held. -/
def erts_has_code_write_permission (g : GateState) : Bool := g.held

/-- Gate operations for trace-based statements. -/
inductive GateOp where
  | seize (c_p : Nat)
  | seizeAux (func arg : Nat)
  | release
deriving DecidableEq, Repr

def applyGateOp (g : GateState) : GateOp → GateState × Bool
  | .seize c => erts_try_seize_code_write_permission c g
  | .seizeAux f a => erts_try_seize_code_write_permission_aux f a g
  | .release => (erts_release_code_write_permission g, false)

/-- Run a sequence of gate operations, returning the final gate state. -/
def gateRun (g : GateState) : List GateOp → GateState
  | [] => g
  | op :: ops => gateRun (applyGateOp g op).1 ops

/-- How many operations of a trace observed a successful seizure
(`erts_try_seize_code_write_permission` or the aux variant returning
true). -/
def seizeSuccesses (g : GateState) : List GateOp → Nat
  | [] => 0
  | op :: ops =>
    (if (applyGateOp g op).2 then 1 else 0) +
      seizeSuccesses (applyGateOp g op).1 ops

/-! ## Helper lemmas -/

/-- The retiring index really is a third epoch: for distinct epochs `a`,
`s` it is below `ERTS_NUM_CODE_IX` and differs from both. -/
theorem retiring_ix_spec (a s : Nat) (ha : a < 3) (hs : s < 3)
    (hne : a ≠ s) :
    retiring_ix a s < 3 ∧ retiring_ix a s ≠ a ∧ retiring_ix a s ≠ s := by
  unfold retiring_ix
  omega

/-- Every interface operation preserves the epoch-set invariant. -/
theorem codeIxInv_applyOp (s : CodeIxState) (h : CodeIxInv s)
    (op : CodeIxOp) : CodeIxInv (applyCodeIxOp s op) := by
  obtain ⟨A, S, P⟩ := s
  have ha : A < 3 := h.1
  have hs : S < 3 := h.2.1
  have hne : A ≠ S := h.2.2
  cases op with
  | start n =>
    refine ⟨ha, ?_, ?_⟩
    · show 3 - (A + S) < 3
      omega
    · show A ≠ 3 - (A + S)
      omega
  | stop => exact ⟨ha, hs, hne⟩
  | commit =>
    refine ⟨hs, ?_, ?_⟩
    · show 3 - (A + S) < 3
      omega
    · show S ≠ 3 - (A + S)
      omega
  | abort => exact ⟨ha, hs, hne⟩

/-- The epoch-set invariant holds along any fold of interface
operations. -/
theorem codeIxInv_foldl (ops : List CodeIxOp) (s : CodeIxState)
    (h : CodeIxInv s) : CodeIxInv (List.foldl applyCodeIxOp s ops) := by
  induction ops generalizing s with
  | nil => exact h
  | cons op ops ih => exact ih _ (codeIxInv_applyOp s h op)

/-- While the gate is held, a release-free trace of gate operations keeps
it held and no seizure attempt succeeds. -/
theorem seizeSuccesses_of_held (ops : List GateOp) (g : GateState)
    (hnr : GateOp.release ∉ ops) (hheld : g.held = true) :
    seizeSuccesses g ops = 0 := by
  induction ops generalizing g with
  | nil => rfl
  | cons op ops ih =>
    have h1 : GateOp.release ≠ op ∧ GateOp.release ∉ ops := by
      simpa [List.mem_cons, not_or] using hnr
    cases op with
    | seize c =>
      simp [seizeSuccesses, applyGateOp,
        erts_try_seize_code_write_permission, hheld]
      exact ih _ h1.2 rfl
    | seizeAux f a =>
      simp [seizeSuccesses, applyGateOp,
        erts_try_seize_code_write_permission_aux, hheld]
      exact ih _ h1.2 rfl
    | release => exact absurd rfl h1.1

/-- In a release-free trace of gate operations, at most one seizure
attempt succeeds. -/
theorem seizeSuccesses_le_one (ops : List GateOp) (g : GateState)
    (hnr : GateOp.release ∉ ops) : seizeSuccesses g ops ≤ 1 := by
  cases hheld : g.held with
  | true =>
    rw [seizeSuccesses_of_held ops g hnr hheld]
    exact Nat.zero_le 1
  | false =>
    cases ops with
    | nil => exact Nat.zero_le 1
    | cons op ops =>
      have h1 : GateOp.release ≠ op ∧ GateOp.release ∉ ops := by
        simpa [List.mem_cons, not_or] using hnr
      cases op with
      | seize c =>
        have h0 : seizeSuccesses
            { held := true, waiters := g.waiters, callbacks := g.callbacks }
            ops = 0 := seizeSuccesses_of_held ops _ h1.2 rfl
        simp [seizeSuccesses, applyGateOp,
          erts_try_seize_code_write_permission, hheld, h0]
      | seizeAux f a =>
        have h0 : seizeSuccesses
            { held := true, waiters := g.waiters, callbacks := g.callbacks }
            ops = 0 := seizeSuccesses_of_held ops _ h1.2 rfl
        simp [seizeSuccesses, applyGateOp,
          erts_try_seize_code_write_permission_aux, hheld, h0]
      | release => exact absurd rfl h1.1

/-! ## Claim theorems -/

/-- Claim C1: for every execution of the staging lifecycle start → end →
commit from an Idle state satisfying the epoch-set invariant (performed
while holding write permission), immediately after
`erts_commit_staging_code_ix` returns, the active index equals the staging
index held immediately before the commit, and the new retiring index (the
unique epoch distinct from the new active and new staging indices) equals
the active index held immediately before the commit. -/
theorem commit_publishes_staging_and_retires_active
    (s0 : CodeIxState) (hinv : CodeIxInv s0) (hidle : s0.phase = .idle)
    (n : Nat) :
    erts_active_code_ix
        (erts_commit_staging_code_ix
          (erts_end_staging_code_ix (erts_start_staging_code_ix n s0))) =
      erts_staging_code_ix
        (erts_end_staging_code_ix (erts_start_staging_code_ix n s0)) ∧
    (∀ r, r < ERTS_NUM_CODE_IX →
      r ≠ erts_active_code_ix
            (erts_commit_staging_code_ix
              (erts_end_staging_code_ix
                (erts_start_staging_code_ix n s0))) →
      r ≠ erts_staging_code_ix
            (erts_commit_staging_code_ix
              (erts_end_staging_code_ix
                (erts_start_staging_code_ix n s0))) →
      r = erts_active_code_ix
            (erts_end_staging_code_ix
              (erts_start_staging_code_ix n s0))) := by
  obtain ⟨A, S, P⟩ := s0
  have ha : A < 3 := hinv.1
  have hs : S < 3 := hinv.2.1
  have hne : A ≠ S := hinv.2.2
  refine ⟨rfl, ?_⟩
  intro r hr h1 h2
  have hr' : r < 3 := hr
  have h1' : r ≠ 3 - (A + S) := h1
  have h2' : r ≠ 3 - (A + (3 - (A + S))) := h2
  show r = A
  omega

/-- Witness for claim C1 at the initialized state: after
start → end → commit from `(active,staging) = (0,1)`, the new active index
is the pre-commit staging index, and the new retiring index `0` is the
pre-commit active index. -/
theorem commit_publishes_staging_and_retires_active_witness :
    erts_active_code_ix
        (erts_commit_staging_code_ix
          (erts_end_staging_code_ix
            (erts_start_staging_code_ix 0 erts_code_ix_init))) =
      erts_staging_code_ix
        (erts_end_staging_code_ix
          (erts_start_staging_code_ix 0 erts_code_ix_init)) ∧
    (0 : Nat) = erts_active_code_ix
        (erts_end_staging_code_ix
          (erts_start_staging_code_ix 0 erts_code_ix_init)) :=
  ⟨(commit_publishes_staging_and_retires_active erts_code_ix_init
      (by decide) (by decide) 0).1,
   (commit_publishes_staging_and_retires_active erts_code_ix_init
      (by decide) (by decide) 0).2 0 (by decide) (by decide) (by decide)⟩

/-- Claim C2: `erts_code_ix_init` establishes two distinct epoch indices,
the invariant `the_active_code_index ≠ the_staging_code_index` (with both
indices in `{0,1,2}`) holds after every trace of interface operations from
the initialized state, and every single interface operation preserves
it. -/
theorem active_ne_staging_invariant :
    CodeIxInv erts_code_ix_init ∧
    (∀ ops : List CodeIxOp, CodeIxInv (runCodeIx ops)) ∧
    (∀ s, CodeIxInv s → ∀ op, CodeIxInv (applyCodeIxOp s op)) :=
  ⟨by decide,
   fun ops => codeIxInv_foldl ops erts_code_ix_init (by decide),
   fun s h op => codeIxInv_applyOp s h op⟩

/-- Witness for claim C2: the invariant after a concrete start operation
on the initialized state. -/
theorem active_ne_staging_invariant_witness :
    CodeIxInv (applyCodeIxOp erts_code_ix_init (CodeIxOp.start 1)) :=
  active_ne_staging_invariant.2.2 erts_code_ix_init (by decide)
    (CodeIxOp.start 1)

/-- Claim C3: the header-to-code and code-to-header translations are exact
mutual inverses on valid header/code pointer pairs: for a header pointer
`h` whose record satisfies the opcode and MFA invariants,
`erts_code_to_codeinfo (erts_codeinfo_to_code h) = h`, and every code
pointer obtained from such a header translates back and forth exactly. -/
theorem codeinfo_code_roundtrip (h : Nat) (ci : ErtsCodeInfo)
    (hvalid : codeinfo_asserts ci = true) :
    erts_code_to_codeinfo (erts_codeinfo_to_code h) = h ∧
    (∀ c, c = erts_codeinfo_to_code h →
      erts_codeinfo_to_code (erts_code_to_codeinfo c) = c) := by
  refine ⟨?_, ?_⟩
  · simp only [erts_codeinfo_to_code, erts_code_to_codeinfo]
    omega
  · intro c hc
    subst hc
    simp only [erts_codeinfo_to_code, erts_code_to_codeinfo]
    omega

/-- Witness for claim C3 at a concrete header address and a concrete valid
header record. -/
theorem codeinfo_code_roundtrip_witness :
    erts_code_to_codeinfo (erts_codeinfo_to_code 64) = 64 ∧
    erts_codeinfo_to_code (erts_code_to_codeinfo 104) = 104 :=
  ⟨(codeinfo_code_roundtrip 64
      ⟨op_i_func_info_IaaI, 0, ⟨.atom 1, .atom 2, 3⟩⟩ (by decide)).1,
   (codeinfo_code_roundtrip 64
      ⟨op_i_func_info_IaaI, 0, ⟨.atom 1, .atom 2, 3⟩⟩ (by decide)).2
     104 (by decide)⟩

/-- Claim C4, counterexample: in a build without `BEAMASM` the dispatch
table's addresses array has `ERTS_NUM_CODE_IX = 3` slots, not
`ERTS_NUM_CODE_IX + 1 = 4`; the claim's unconditional slot count is
false. -/
theorem dispatchable_size_counterexample :
    ERTS_ADDRESSV_SIZE false ≠ ERTS_NUM_CODE_IX + 1 := by decide

/-- Claim C4, amended: under `BEAMASM` the dispatch table's addresses
array has `ERTS_NUM_CODE_IX + 1 = 4` slots, one per epoch plus the
reserved save-calls slot; without `BEAMASM` it has exactly
`ERTS_NUM_CODE_IX = 3` slots and no reserved slot. -/
theorem dispatchable_size_amended :
    ERTS_ADDRESSV_SIZE true = ERTS_NUM_CODE_IX + 1 ∧
    ERTS_ADDRESSV_SIZE true = 4 ∧
    ERTS_ADDRESSV_SIZE false = ERTS_NUM_CODE_IX ∧
    ERTS_NUM_CODE_IX = 3 := by decide

/-- Claim C5: under the MFA invariant (module and function each an atom or
NIL, arity in `[0,1024)` or the `(Uint)-1` sentinel) and the opcode
invariant for headers, none of the debug assertions in the four
translation accessors fires: each accessor returns its pointer-arithmetic
result. -/
theorem mfa_assertions_never_fire (ci : ErtsCodeInfo) (mfa : ErtsCodeMFA)
    (hop : ci.op = op_i_func_info_IaaI ∨ ci.op = 0)
    (hm1 : is_atom ci.mfa.module = true ∨ is_nil ci.mfa.module = true)
    (hf1 : is_atom ci.mfa.function = true ∨ is_nil ci.mfa.function = true)
    (ha1 : ci.mfa.arity < 1024 ∨ ci.mfa.arity = uint_minus_one)
    (hm2 : is_atom mfa.module = true ∨ is_nil mfa.module = true)
    (hf2 : is_atom mfa.function = true ∨ is_nil mfa.function = true)
    (ha2 : mfa.arity < 1024 ∨ mfa.arity = uint_minus_one)
    (a b c d : Nat) :
    erts_codeinfo_to_code_dbg a ci = some (erts_codeinfo_to_code a) ∧
    erts_code_to_codeinfo_dbg b ci = some (erts_code_to_codeinfo b) ∧
    erts_codemfa_to_code_dbg c mfa = some (erts_codemfa_to_code c) ∧
    erts_code_to_codemfa_dbg d mfa = some (erts_code_to_codemfa d) := by
  have hA : ∀ m : ErtsCodeMFA,
      (is_atom m.module = true ∨ is_nil m.module = true) →
      (is_atom m.function = true ∨ is_nil m.function = true) →
      (m.arity < 1024 ∨ m.arity = uint_minus_one) →
      ASSERT_MFA m = true := by
    intro m h1 h2 h3
    unfold ASSERT_MFA
    rcases h1 with h1 | h1 <;> rcases h2 with h2 | h2 <;>
      rcases h3 with h3 | h3 <;> simp [h1, h2, h3]
  have hci : codeinfo_asserts ci = true := by
    unfold codeinfo_asserts BeamIsOpCode
    rcases hop with hop | hop <;>
      simp [hop, hA ci.mfa hm1 hf1 ha1]
  refine ⟨?_, ?_, ?_, ?_⟩ <;>
    simp [erts_codeinfo_to_code_dbg, erts_code_to_codeinfo_dbg,
      erts_codemfa_to_code_dbg, erts_code_to_codemfa_dbg, hci,
      hA mfa hm2 hf2 ha2]

/-- Witness for claim C5 at a concrete valid header and a concrete valid
MFA (using the arity sentinel). -/
theorem mfa_assertions_never_fire_witness :
    erts_codeinfo_to_code_dbg 8
        ⟨op_i_func_info_IaaI, 0, ⟨.atom 1, .atom 2, 3⟩⟩ =
      some (erts_codeinfo_to_code 8) ∧
    erts_codemfa_to_code_dbg 40 ⟨.atom 1, .nil, uint_minus_one⟩ =
      some (erts_codemfa_to_code 40) :=
  ⟨(mfa_assertions_never_fire
      ⟨op_i_func_info_IaaI, 0, ⟨.atom 1, .atom 2, 3⟩⟩
      ⟨.atom 1, .nil, uint_minus_one⟩
      (Or.inl rfl) (Or.inl rfl) (Or.inl rfl) (Or.inl (by decide))
      (Or.inl rfl) (Or.inr rfl) (Or.inr rfl) 8 16 40 48).1,
   (mfa_assertions_never_fire
      ⟨op_i_func_info_IaaI, 0, ⟨.atom 1, .atom 2, 3⟩⟩
      ⟨.atom 1, .nil, uint_minus_one⟩
      (Or.inl rfl) (Or.inl rfl) (Or.inl rfl) (Or.inl (by decide))
      (Or.inl rfl) (Or.inr rfl) (Or.inr rfl) 8 16 40 48).2.2.1⟩

/-- Claim C6: from an Idle state satisfying the epoch-set invariant (with
write permission held), `erts_start_staging_code_ix` leaves the active
index unchanged and sets the staging index to the current retiring index:
the unique epoch in `{0,1,2}` equal to neither the current active index
nor the current staging index. -/
theorem start_sets_staging_to_retiring (s : CodeIxState)
    (hinv : CodeIxInv s) (hidle : s.phase = .idle) (n : Nat) :
    erts_active_code_ix (erts_start_staging_code_ix n s) =
      erts_active_code_ix s ∧
    erts_staging_code_ix (erts_start_staging_code_ix n s) <
      ERTS_NUM_CODE_IX ∧
    erts_staging_code_ix (erts_start_staging_code_ix n s) ≠
      erts_active_code_ix s ∧
    erts_staging_code_ix (erts_start_staging_code_ix n s) ≠
      erts_staging_code_ix s ∧
    (∀ r, r < ERTS_NUM_CODE_IX → r ≠ erts_active_code_ix s →
      r ≠ erts_staging_code_ix s →
      erts_staging_code_ix (erts_start_staging_code_ix n s) = r) := by
  obtain ⟨A, S, P⟩ := s
  have ha : A < 3 := hinv.1
  have hs : S < 3 := hinv.2.1
  have hne : A ≠ S := hinv.2.2
  refine ⟨rfl, ?_, ?_, ?_, ?_⟩
  · show 3 - (A + S) < 3
    omega
  · show 3 - (A + S) ≠ A
    omega
  · show 3 - (A + S) ≠ S
    omega
  · intro r hr hra hrs
    have hr' : r < 3 := hr
    have hra' : r ≠ A := hra
    have hrs' : r ≠ S := hrs
    show 3 - (A + S) = r
    omega

/-- Witness for claim C6 at the initialized state: starting from
`(active,staging) = (0,1)` sets the staging index to the retiring index
`2`. -/
theorem start_sets_staging_to_retiring_witness :
    erts_staging_code_ix (erts_start_staging_code_ix 5 erts_code_ix_init) =
      2 :=
  (start_sets_staging_to_retiring erts_code_ix_init (by decide) (by decide)
      5).2.2.2.2 2 (by decide) (by decide) (by decide)

/-- Claim C7: aborting after a start — from Staged directly, or from Ended
after an end — leaves the active index unchanged and returns the lifecycle
to Idle; and since the staged index differs from the active index, a
reader indexing a dispatch table with the active index never observes a
value written to the discarded staging generation's slot. -/
theorem abort_leaves_active_untouched (s : CodeIxState)
    (hinv : CodeIxInv s) (hidle : s.phase = .idle) (n : Nat) :
    (erts_active_code_ix
        (erts_abort_staging_code_ix (erts_start_staging_code_ix n s)) =
        erts_active_code_ix s ∧
      (erts_abort_staging_code_ix
          (erts_start_staging_code_ix n s)).phase = StagePhase.idle) ∧
    (erts_active_code_ix
        (erts_abort_staging_code_ix
          (erts_end_staging_code_ix (erts_start_staging_code_ix n s))) =
        erts_active_code_ix s ∧
      (erts_abort_staging_code_ix
          (erts_end_staging_code_ix
            (erts_start_staging_code_ix n s))).phase = StagePhase.idle) ∧
    (∀ (beamasm : Bool) (d : ErtsDispatchable beamasm) (v : Nat)
        (i j : Fin (ERTS_ADDRESSV_SIZE beamasm)),
      (i : Nat) = erts_active_code_ix s →
      (j : Nat) = erts_staging_code_ix (erts_start_staging_code_ix n s) →
      dispatchRead (dispatchWrite d j v) i = dispatchRead d i) := by
  obtain ⟨A, S, P⟩ := s
  have ha : A < 3 := hinv.1
  have hs : S < 3 := hinv.2.1
  have hne : A ≠ S := hinv.2.2
  refine ⟨⟨rfl, rfl⟩, ⟨rfl, rfl⟩, ?_⟩
  intro beamasm d v i j hi hj
  have hi' : (i : Nat) = A := hi
  have hj' : (j : Nat) = 3 - (A + S) := hj
  have hij : i ≠ j := by
    intro hEq
    rw [hEq] at hi'
    omega
  simp only [dispatchRead, dispatchWrite]
  rw [if_neg hij]

/-- Witness for claim C7 at the initialized state: aborting a staging
episode started from `(active,staging) = (0,1)` keeps the active index at
`0`, and a read of dispatch slot `0` is unchanged by a write to the
discarded staging slot `2`. -/
theorem abort_leaves_active_untouched_witness :
    erts_active_code_ix
        (erts_abort_staging_code_ix
          (erts_start_staging_code_ix 0 erts_code_ix_init)) =
      erts_active_code_ix erts_code_ix_init ∧
    dispatchRead
        (dispatchWrite (⟨fun _ => 11⟩ : ErtsDispatchable true)
          ⟨2, by decide⟩ 99) ⟨0, by decide⟩ =
      dispatchRead (⟨fun _ => 11⟩ : ErtsDispatchable true) ⟨0, by decide⟩ :=
  ⟨(abort_leaves_active_untouched erts_code_ix_init (by decide) (by decide)
      0).1.1,
   (abort_leaves_active_untouched erts_code_ix_init (by decide) (by decide)
      0).2.2 true ⟨fun _ => 11⟩ 99 ⟨0, by decide⟩ ⟨2, by decide⟩
     (by decide) (by decide)⟩

/-- Claim C8: the write-permission gate is mutually exclusive: in any
release-free span of gate operations, at most one seizure attempt
(`erts_try_seize_code_write_permission` or the aux variant) observes true;
and a caller that receives false is enqueued on the wait set (or has its
callback registered) rather than proceeding. -/
theorem gate_mutual_exclusion (g : GateState) (ops : List GateOp)
    (hnr : GateOp.release ∉ ops) :
    seizeSuccesses g ops ≤ 1 ∧
    (∀ c, g.held = true →
      erts_try_seize_code_write_permission c g =
        ({ g with waiters := g.waiters ++ [c] }, false)) ∧
    (∀ f a, g.held = true →
      erts_try_seize_code_write_permission_aux f a g =
        ({ g with callbacks := g.callbacks ++ [(f, a)] }, false)) := by
  refine ⟨seizeSuccesses_le_one ops g hnr, ?_, ?_⟩
  · intro c hheld
    simp [erts_try_seize_code_write_permission, hheld]
  · intro f a hheld
    simp [erts_try_seize_code_write_permission_aux, hheld]

/-- Witness for claim C8: two back-to-back seizure attempts on a free gate
yield at most one success, and a seizure attempt on a held gate enqueues
the caller and returns false. -/
theorem gate_mutual_exclusion_witness :
    seizeSuccesses ⟨false, [], []⟩ [GateOp.seize 1, GateOp.seize 2] ≤ 1 ∧
    erts_try_seize_code_write_permission 7 ⟨true, [], []⟩ =
      (⟨true, [7], []⟩, false) :=
  ⟨(gate_mutual_exclusion ⟨false, [], []⟩ [GateOp.seize 1, GateOp.seize 2]
      (by decide)).1,
   (gate_mutual_exclusion ⟨true, [], []⟩ [GateOp.seize 1]
      (by decide)).2.1 7 rfl⟩

/-- Claim C9: the MFA-based and CodeInfo-based translation paths agree:
because `mfa` is the last field of `ErtsCodeInfo`, applying
`erts_codemfa_to_code` to the address of a header's `mfa` field yields the
same code pointer as `erts_codeinfo_to_code` on the header itself, and
`erts_codemfa_to_code` / `erts_code_to_codemfa` are exact mutual inverses
on MFA/code pointer pairs. -/
theorem codemfa_codeinfo_paths_agree (ci m : Nat) :
    erts_codemfa_to_code (ci + offsetof_mfa) = erts_codeinfo_to_code ci ∧
    erts_code_to_codemfa (erts_codemfa_to_code m) = m ∧
    erts_codemfa_to_code (erts_code_to_codemfa (erts_codemfa_to_code m)) =
      erts_codemfa_to_code m := by
  refine ⟨?_, ?_, ?_⟩ <;>
    simp only [erts_codemfa_to_code, erts_codeinfo_to_code,
      erts_code_to_codemfa, sizeof_ErtsCodeInfo, offsetof_mfa,
      sizeof_ErtsCodeMFA, sizeof_BeamInstr, sizeof_union_u, wordSize] <;>
    omega

/-- Claim C10: the reserved save-calls dispatch slot index equals
`ERTS_ADDRESSV_SIZE - 1 = 3`, distinct from every epoch index in
`{0,1,2}`, so a write to the reserved slot never changes what any
epoch-indexed dispatch read returns. -/
theorem save_calls_slot_disjoint :
    ERTS_SAVE_CALLS_CODE_IX = ERTS_ADDRESSV_SIZE true - 1 ∧
    ERTS_SAVE_CALLS_CODE_IX = 3 ∧
    (∀ i, i < ERTS_NUM_CODE_IX → i ≠ ERTS_SAVE_CALLS_CODE_IX) ∧
    (∀ (d : ErtsDispatchable true) (v : Nat)
        (i j : Fin (ERTS_ADDRESSV_SIZE true)),
      (i : Nat) < ERTS_NUM_CODE_IX →
      (j : Nat) = ERTS_SAVE_CALLS_CODE_IX →
      dispatchRead (dispatchWrite d j v) i = dispatchRead d i) := by
  refine ⟨rfl, rfl, ?_, ?_⟩
  · intro i hi
    have h3 : ERTS_SAVE_CALLS_CODE_IX = 3 := rfl
    have hN : ERTS_NUM_CODE_IX = 3 := rfl
    omega
  · intro d v i j hi hj
    have hij : i ≠ j := by
      intro hEq
      rw [hEq, hj] at hi
      exact absurd hi (by decide)
    simp only [dispatchRead, dispatchWrite]
    rw [if_neg hij]

/-- Witness for claim C10: epoch slot `0` is distinct from the reserved
slot `3`, and a write to slot `3` leaves a read of slot `0` unchanged. -/
theorem save_calls_slot_disjoint_witness :
    (0 : Nat) ≠ ERTS_SAVE_CALLS_CODE_IX ∧
    dispatchRead
        (dispatchWrite (⟨fun _ => 7⟩ : ErtsDispatchable true)
          ⟨3, by decide⟩ 9) ⟨0, by decide⟩ =
      dispatchRead (⟨fun _ => 7⟩ : ErtsDispatchable true) ⟨0, by decide⟩ :=
  ⟨save_calls_slot_disjoint.2.2.1 0 (by decide),
   save_calls_slot_disjoint.2.2.2 ⟨fun _ => 7⟩ 9 ⟨0, by decide⟩
     ⟨3, by decide⟩ (by decide) (by decide)⟩

end CodeIx
